import Mathlib

/-!
Shallow embedding of the `music-rapper` repository's core modules:
`src/pattern_builder.py`, `src/music_generator.py`, `src/command_parser.py`.

Randomness is modelled by an explicit stream `g : Nat → ℚ` of draws in `[0,1)`
together with a cursor `i : Nat`; each call to Python's `random.random()` or
`random.randint`/`random.choice` consumes exactly one draw, in the order the
source performs them.
-/

namespace MusicRapper

/-- A note event, mirroring the dicts `{'note','velocity','time','duration'}`
built by `pattern_builder.py`. -/
structure NoteEvent where
  note : Int
  velocity : Nat
  time : ℚ
  duration : ℚ
deriving DecidableEq

/-- A stream of random draws (each intended to lie in `[0,1)`). -/
def RStream : Type := Nat → ℚ

/-- Model of `random.randint(a, b)` applied to one draw `q`:
a deterministic map into `[a, b]`. -/
def randint (a b : Nat) (q : ℚ) : Nat :=
  a + min (b - a) (Int.toNat (Rat.floor (q * ((b : ℚ) - (a : ℚ) + 1))))

/-- Model of `random.choice(l)` applied to one draw `q`. -/
def rchoice (l : List Int) (q : ℚ) : Int :=
  l.getD (min (l.length - 1) (Int.toNat (Rat.floor (q * (l.length : ℚ))))) 0

/-- `PatternBuilder.step_duration = 60.0 / bpm / (steps_per_bar / 4)`. -/
def stepDur (bpm spb : Nat) : ℚ :=
  60 / (bpm : ℚ) / ((spb : ℚ) / 4)

/-- Runs a per-step emitter `f step cursor = (events, cursor')` over `n`
consecutive steps starting at `s`, threading the draw cursor, and
concatenates the emitted events in step order (the Python `for step in
range(total_steps)` loop shape shared by all pattern builders). -/
def patLoop (f : Nat → Nat → List NoteEvent × Nat) : Nat → Nat → Nat → List NoteEvent × Nat
  | _, 0, i => ([], i)
  | s, n + 1, i =>
    let ei := f s i
    let rest := patLoop f (s + 1) n ei.2
    (ei.1 ++ rest.1, rest.2)

/-- One step of `PatternBuilder._memphis_pattern` (draws consumed exactly as
the Python short-circuit evaluation does). -/
def memphisStep (sd cx : ℚ) (spb : Nat) (g : RStream) (step i : Nat) : List NoteEvent × Nat :=
  let time : ℚ := (step : ℚ) * sd
  let pos := step % spb
  -- kick on 1 and 3 (sometimes 4): a draw happens only when pos = 12
  let kick : Bool × Nat :=
    if pos = 0 ∨ pos = 8 then (true, i)
    else if pos = 12 then (decide (g i < cx), i + 1)
    else (false, i)
  let kicks : List NoteEvent × Nat :=
    if kick.1 then
      ([{ note := 36, velocity := randint 90 110 (g kick.2), time := time,
          duration := sd * 2 }], kick.2 + 1)
    else ([], kick.2)
  let snares : List NoteEvent × Nat :=
    if pos = 4 ∨ pos = 12 then
      ([{ note := 38, velocity := randint 100 120 (g kicks.2), time := time,
          duration := sd }], kicks.2 + 1)
    else ([], kicks.2)
  -- rolling hi-hats: a draw happens only on odd positions
  let hat : Bool × Nat :=
    if pos % 2 = 0 then (true, snares.2) else (decide (g snares.2 < cx), snares.2 + 1)
  let hats : List NoteEvent × Nat :=
    if hat.1 then
      let v : Nat × Nat :=
        if pos % 2 = 1 then (randint 60 90 (g hat.2), hat.2 + 1)
        else (randint 70 100 (g hat.2), hat.2 + 1)
      ([{ note := 42, velocity := v.1, time := time, duration := sd * (4/5) }], v.2)
    else ([], hat.2)
  (kicks.1 ++ snares.1 ++ hats.1, hats.2)

/-- `PatternBuilder._memphis_pattern`. -/
def memphisPattern (bpm spb bars : Nat) (cx : ℚ) (g : RStream) (i : Nat) :
    List NoteEvent × Nat :=
  patLoop (memphisStep (stepDur bpm spb) cx spb g) 0 (spb * bars) i

/-- The three appended notes of a trap triplet hi-hat roll. -/
def trapRoll (sd time : ℚ) (g : RStream) (i : Nat) : List NoteEvent × Nat :=
  ([{ note := 42, velocity := randint 80 100 (g i), time := time + 0 * sd / 3,
      duration := sd / 3 },
    { note := 42, velocity := randint 80 100 (g (i + 1)), time := time + 1 * sd / 3,
      duration := sd / 3 },
    { note := 42, velocity := randint 80 100 (g (i + 2)), time := time + 2 * sd / 3,
      duration := sd / 3 }], i + 3)

/-- One step of `PatternBuilder._trap_pattern`. -/
def trapStep (sd cx : ℚ) (spb : Nat) (g : RStream) (step i : Nat) : List NoteEvent × Nat :=
  let time : ℚ := (step : ℚ) * sd
  let pos := step % spb
  let kicks : List NoteEvent × Nat :=
    if pos = 0 ∨ pos = 6 ∨ pos = 10 then
      ([{ note := 36, velocity := randint 100 127 (g i), time := time,
          duration := sd * 3 }], i + 1)
    else ([], i)
  let snares : List NoteEvent × Nat :=
    if pos = 8 then
      ([{ note := 38, velocity := randint 110 127 (g kicks.2), time := time,
          duration := sd * 2 }], kicks.2 + 1)
    else ([], kicks.2)
  let hats : List NoteEvent × Nat :=
    if pos % 2 = 0 then
      ([{ note := 42, velocity := randint 60 80 (g snares.2), time := time,
          duration := sd * (7/10) }], snares.2 + 1)
    else ([], snares.2)
  -- triplet rolls: `complexity > 0.6 and pos in [7,15] and random.random() < 0.7`
  let rolls : List NoteEvent × Nat :=
    if cx > 3/5 ∧ (pos = 7 ∨ pos = 15) then
      if g hats.2 < 7/10 then trapRoll sd time g (hats.2 + 1)
      else ([], hats.2 + 1)
    else ([], hats.2)
  (kicks.1 ++ snares.1 ++ hats.1 ++ rolls.1, rolls.2)

/-- `PatternBuilder._trap_pattern`. -/
def trapPattern (bpm spb bars : Nat) (cx : ℚ) (g : RStream) (i : Nat) :
    List NoteEvent × Nat :=
  patLoop (trapStep (stepDur bpm spb) cx spb g) 0 (spb * bars) i

/-- One step of `PatternBuilder._lofi_pattern` (swing factor 0.7 applied to
odd steps). -/
def lofiStep (sd : ℚ) (spb : Nat) (g : RStream) (step i : Nat) : List NoteEvent × Nat :=
  let time : ℚ :=
    if step % 2 = 1 then ((step : ℚ) - 1) * sd + sd * (7/10)
    else (step : ℚ) * sd
  let pos := step % spb
  let kicks : List NoteEvent × Nat :=
    if pos = 0 ∨ pos = 8 then
      ([{ note := 36, velocity := randint 70 90 (g i), time := time,
          duration := sd * 2 }], i + 1)
    else ([], i)
  let snares : List NoteEvent × Nat :=
    if pos = 4 ∨ pos = 12 then
      ([{ note := 38, velocity := randint 60 80 (g kicks.2), time := time,
          duration := sd }], kicks.2 + 1)
    else ([], kicks.2)
  let hats : List NoteEvent × Nat :=
    if pos % 2 = 0 then
      ([{ note := 42, velocity := randint 40 60 (g snares.2), time := time,
          duration := sd }], snares.2 + 1)
    else ([], snares.2)
  (kicks.1 ++ snares.1 ++ hats.1, hats.2)

/-- `PatternBuilder._lofi_pattern`. -/
def lofiPattern (bpm spb bars : Nat) (g : RStream) (i : Nat) : List NoteEvent × Nat :=
  patLoop (lofiStep (stepDur bpm spb) spb g) 0 (spb * bars) i

/-- One step of `PatternBuilder._boom_bap_pattern`. -/
def boomBapStep (sd : ℚ) (spb : Nat) (g : RStream) (step i : Nat) : List NoteEvent × Nat :=
  let time : ℚ := (step : ℚ) * sd
  let pos := step % spb
  let kicks : List NoteEvent × Nat :=
    if pos = 0 ∨ pos = 10 then
      ([{ note := 36, velocity := randint 110 127 (g i), time := time,
          duration := sd * 2 }], i + 1)
    else ([], i)
  let snares : List NoteEvent × Nat :=
    if pos = 4 ∨ pos = 12 then
      ([{ note := 38, velocity := randint 100 120 (g kicks.2), time := time,
          duration := sd }], kicks.2 + 1)
    else ([], kicks.2)
  let hats : List NoteEvent × Nat :=
    if pos % 4 = 0 then
      ([{ note := 42, velocity := randint 50 70 (g snares.2), time := time,
          duration := sd }], snares.2 + 1)
    else ([], snares.2)
  (kicks.1 ++ snares.1 ++ hats.1, hats.2)

/-- `PatternBuilder._boom_bap_pattern`. -/
def boomBapPattern (bpm spb bars : Nat) (g : RStream) (i : Nat) : List NoteEvent × Nat :=
  patLoop (boomBapStep (stepDur bpm spb) spb g) 0 (spb * bars) i

/-- One step of `PatternBuilder._basic_pattern` (no random draws at all:
velocities are literal). -/
def basicStep (sd : ℚ) (spb : Nat) (step i : Nat) : List NoteEvent × Nat :=
  let time : ℚ := (step : ℚ) * sd
  let pos := step % spb
  let kicks : List NoteEvent :=
    if pos % 4 = 0 then
      [{ note := 36, velocity := 100, time := time, duration := sd }]
    else []
  let snares : List NoteEvent :=
    if pos = 4 ∨ pos = 12 then
      [{ note := 38, velocity := 100, time := time, duration := sd }]
    else []
  let hats : List NoteEvent :=
    if pos % 2 = 0 then
      [{ note := 42, velocity := 80, time := time, duration := sd }]
    else []
  (kicks ++ snares ++ hats, i)

/-- `PatternBuilder._basic_pattern`. -/
def basicPattern (bpm spb bars : Nat) (i : Nat) : List NoteEvent × Nat :=
  patLoop (basicStep (stepDur bpm spb) spb) 0 (spb * bars) i

/-- Runs a per-step bass emitter over an explicit list of grid steps,
threading the draw cursor (the loop shape of `create_808_bassline`). -/
def bassLoop (f : Nat → Nat → NoteEvent × Nat) : List Nat → Nat → List NoteEvent × Nat
  | [], i => ([], i)
  | s :: rest, i =>
    let e := f s i
    let r := bassLoop f rest e.2
    (e.1 :: r.1, r.2)

/-- `PatternBuilder.create_808_bassline`. -/
def bass808 (spb : Nat) (sd : ℚ) (root : Int) (scale : List Int) (bars : Nat)
    (ptype : String) (g : RStream) (i : Nat) : List NoteEvent × Nat :=
  if ptype = "simple" then
    bassLoop
      (fun s i =>
        ({ note := root, velocity := randint 100 120 (g i), time := (s : ℚ) * sd,
           duration := sd * 3 }, i + 1))
      ((List.range bars).flatMap (fun bar => [bar * spb + 0, bar * spb + 8])) i
  else if ptype = "bouncy" then
    bassLoop
      (fun s i =>
        ({ note := root + rchoice (scale.take 4) (g i),
           velocity := randint 90 110 (g (i + 1)), time := (s : ℚ) * sd,
           duration := sd * 2 }, i + 2))
      ((List.range bars).flatMap
        (fun bar => [0, 3, 6, 8, 11, 14].map (fun p => bar * spb + p))) i
  else if ptype = "rolling" then
    bassLoop
      (fun s i =>
        ({ note := root + rchoice (scale.take 3) (g i),
           velocity := randint 80 100 (g (i + 1)), time := (s : ℚ) * sd,
           duration := sd * (3/2) }, i + 2))
      (List.range' 0 ((spb * bars + 1) / 2) 2) i
  else ([], i)

/-- `PatternBuilder.combine_patterns`: concatenation of the argument patterns
in order, then a stable sort by `'time'` (Python `list.sort` is stable;
`mergeSort` is its stable-sort counterpart here). -/
def combine_patterns (ps : List (List NoteEvent)) : List NoteEvent :=
  ps.flatten.mergeSort (fun x y => decide (x.time ≤ y.time))

/-! ## Character / string helpers shared by the generator and the parser -/

/-- Python `str.isspace` characters relevant to `.strip()` (ASCII subset). -/
def pyIsSpace (c : Char) : Bool :=
  c = ' ' ∨ c = '\t' ∨ c = '\n' ∨ c = '\r' ∨ c = '\x0b' ∨ c = '\x0c'

/-- Python `str.lower` on an ASCII character. -/
def pyLowerChar (c : Char) : Char :=
  if 'A' ≤ c ∧ c ≤ 'Z' then Char.ofNat (c.toNat + 32) else c

def pyLower (cs : List Char) : List Char := cs.map pyLowerChar

def pyStrip (cs : List Char) : List Char :=
  ((cs.dropWhile pyIsSpace).reverse.dropWhile pyIsSpace).reverse

def strLower (s : String) : String := ⟨pyLower s.data⟩

def strStrip (s : String) : String := ⟨pyStrip s.data⟩

/-! ## `music_generator.py` -/

/-- `MusicGenerator.SCALES`. -/
def SCALES : List (String × List Int) :=
  [("major", [0, 2, 4, 5, 7, 9, 11]),
   ("minor", [0, 2, 3, 5, 7, 8, 10]),
   ("pentatonic_major", [0, 2, 4, 7, 9]),
   ("pentatonic_minor", [0, 3, 5, 7, 10]),
   ("blues", [0, 3, 5, 6, 7, 10]),
   ("harmonic_minor", [0, 2, 3, 5, 7, 8, 11]),
   ("dorian", [0, 2, 3, 5, 7, 9, 10])]

/-- A genre template record of `MusicGenerator.GENRE_TEMPLATES`. -/
structure GenreTemplate where
  tempoLo : Nat
  tempoHi : Nat
  scale : String
  drumStyle : String
  bassPattern : String
  complexity : ℚ
deriving DecidableEq

def trapTemplate : GenreTemplate :=
  { tempoLo := 130, tempoHi := 150, scale := "minor", drumStyle := "trap",
    bassPattern := "bouncy", complexity := 3/5 }

/-- `MusicGenerator.GENRE_TEMPLATES`. -/
def GENRE_TEMPLATES : List (String × GenreTemplate) :=
  [("memphis",
    { tempoLo := 160, tempoHi := 180, scale := "minor", drumStyle := "memphis",
      bassPattern := "simple", complexity := 7/10 }),
   ("trap", trapTemplate),
   ("lofi",
    { tempoLo := 70, tempoHi := 90, scale := "pentatonic_minor", drumStyle := "lofi",
      bassPattern := "simple", complexity := 2/5 }),
   ("boom_bap",
    { tempoLo := 85, tempoHi := 95, scale := "minor", drumStyle := "boom_bap",
      bassPattern := "simple", complexity := 1/2 }),
   ("drill",
    { tempoLo := 140, tempoHi := 150, scale := "harmonic_minor", drumStyle := "trap",
      bassPattern := "rolling", complexity := 4/5 })]

/-- The note-name table of `MusicGenerator._parse_key` (C4 = 60). -/
def noteMap : List (String × Nat) :=
  [("C", 60), ("C#", 61), ("Db", 61),
   ("D", 62), ("D#", 63), ("Eb", 63),
   ("E", 64),
   ("F", 65), ("F#", 66), ("Gb", 66),
   ("G", 67), ("G#", 68), ("Ab", 68),
   ("A", 69), ("A#", 70), ("Bb", 70),
   ("B", 71)]

/-- The root-letter part of a key string: the stripped key minus a trailing
`'m'` when present (`MusicGenerator._parse_key`). -/
def rootPart (key : String) : String :=
  let k := strStrip key
  if k.data.getLast? = some 'm' then ⟨k.data.dropLast⟩ else k

/-- `MusicGenerator._parse_key`. -/
def parse_key (key : String) (defaultScale : String) : Nat × String :=
  let k := strStrip key
  let scaleType :=
    if k.data.getLast? = some 'm' then "minor"
    else if defaultScale = "minor" then "major"
    else defaultScale
  ((noteMap.lookup (rootPart key)).getD 60, scaleType)

/-- `PatternBuilder.create_drum_pattern`: dispatch on `style.lower()`. -/
def create_drum_pattern (bpm spb : Nat) (style : String) (bars : Nat) (cx : ℚ)
    (g : RStream) (i : Nat) : List NoteEvent × Nat :=
  let s := strLower style
  if s = "memphis" then memphisPattern bpm spb bars cx g i
  else if s = "trap" then trapPattern bpm spb bars cx g i
  else if s = "lofi" then lofiPattern bpm spb bars g i
  else if s = "boom_bap" then boomBapPattern bpm spb bars g i
  else basicPattern bpm spb bars i

/-- The result bundle of `MusicGenerator.generate_beat`. -/
structure BeatBundle where
  genre : String
  bpm : Nat
  key : String
  bars : Nat
  drum_pattern : List NoteEvent
  bass_pattern : List NoteEvent
  combined_pattern : List NoteEvent
  scale : String
  root_note : Nat
deriving DecidableEq

/-- `MusicGenerator.generate_beat`. The unknown-genre fallback reassigns
`genre_lower = 'trap'` before the template lookup, while the returned bundle
echoes the original `genre` argument unchanged. -/
def generate_beat (genre : String) (bpm? : Option Nat) (key : String) (bars : Nat)
    (include808 : Bool) (g : RStream) (i : Nat) : BeatBundle :=
  let template :=
    match GENRE_TEMPLATES.lookup (strLower genre) with
    | some t => t
    | none => trapTemplate
  let bpmI : Nat × Nat :=
    match bpm? with
    | some b => (b, i)
    | none => (randint template.tempoLo template.tempoHi (g i), i + 1)
  let bpm := bpmI.1
  let rk := parse_key key template.scale
  let drum := create_drum_pattern bpm 16 template.drumStyle bars template.complexity g bpmI.2
  let bass : List NoteEvent × Nat :=
    if include808 then
      bass808 16 (stepDur bpm 16) ((rk.1 : Int) - 12)
        ((SCALES.lookup rk.2).getD []) bars template.bassPattern g drum.2
    else ([], drum.2)
  let combined := combine_patterns [drum.1, bass.1]
  { genre := genre, bpm := bpm, key := key, bars := bars,
    drum_pattern := drum.1, bass_pattern := bass.1, combined_pattern := combined,
    scale := rk.2, root_note := rk.1 }

/-! ## `command_parser.py`

Each regex of `CommandParser.patterns` is translated as an explicit matcher
`...At : List Char → Option _` that attempts a match anchored at the current
position (with backtracking where the regex needs it), and `scanFirst`
replays `re.search`: the leftmost position with a successful match wins. -/

def pyUpperChar (c : Char) : Char :=
  if 'a' ≤ c ∧ c ≤ 'z' then Char.ofNat (c.toNat - 32) else c

def pyUpper (cs : List Char) : List Char := cs.map pyUpperChar

/-- Python substring containment (`needle in hay`). -/
def isSubstr (needle : List Char) : List Char → Bool
  | [] => needle.isEmpty
  | c :: t => needle.isPrefixOf (c :: t) || isSubstr needle t

/-- `re.search` driver: try the anchored matcher at every position, leftmost
success first. -/
def scanFirst (f : List Char → Option α) : List Char → Option α
  | [] => f []
  | c :: t =>
    match f (c :: t) with
    | some a => some a
    | none => scanFirst f t

/-- Literal token: consume `w` exactly. -/
def litS (w : String) (cs : List Char) : Option (List Char) :=
  if w.data.isPrefixOf cs then some (cs.drop w.data.length) else none

/-- Regex `\s+`, taken maximally (used where no following atom can match
whitespace, so greedy backtracking is irrelevant). -/
def ws1 (cs : List Char) : Option (List Char) :=
  match cs with
  | c :: t => if pyIsSpace c then some (t.dropWhile pyIsSpace) else none
  | [] => none

def natOfDigits (ds : List Char) : Nat :=
  ds.foldl (fun a c => a * 10 + (c.toNat - 48)) 0

/-- Regex `(\d+)`, greedy. -/
def digits1 (cs : List Char) : Option (Nat × List Char) :=
  let tk := cs.takeWhile Char.isDigit
  if tk.isEmpty then none else some (natOfDigits tk, cs.drop tk.length)

def leadWs (cs : List Char) : Nat := (cs.takeWhile pyIsSpace).length

/-- Greedy `\s+` with backtracking: try consuming `k` whitespace characters,
then `k - 1`, ..., down to `1`. -/
def tryWsDown (cs : List Char) : Nat → (List Char → Option α) → Option α
  | 0, _ => none
  | k + 1, f =>
    match f (cs.drop (k + 1)) with
    | some a => some a
    | none => tryWsDown cs k f

/-- Lazy `(.+?)`: try capture lengths 1, 2, ... (never crossing a newline,
which `.` does not match). -/
def tryLazyUp (taken rest : List Char) (f : List Char → List Char → Option α) : Option α :=
  match rest with
  | [] => none
  | c :: t =>
    if c = '\n' then none
    else
      match f (taken ++ [c]) t with
      | some a => some a
      | none => tryLazyUp (taken ++ [c]) t f

/-- Regex `(?:wav|mp3|flac|aiff)`. -/
def extAlt (cs : List Char) : Option (List Char) :=
  if "wav".data.isPrefixOf cs then some "wav".data
  else if "mp3".data.isPrefixOf cs then some "mp3".data
  else if "flac".data.isPrefixOf cs then some "flac".data
  else if "aiff".data.isPrefixOf cs then some "aiff".data
  else none

/-- Pattern `'sample_process'`:
`(?:take|load|use|get)\s+(.+?\.(?:wav|mp3|flac|aiff))` (group 1). -/
def samplePathAt (cs : List Char) : Option (List Char) := do
  let r1 ← litS "take" cs <|> litS "load" cs <|> litS "use" cs <|> litS "get" cs
  let m := leadWs r1
  if m = 0 then none
  else
    tryWsDown r1 m (fun r2 =>
      tryLazyUp [] r2 (fun grp r3 => do
        let r4 ← litS "." r3
        let e ← extAlt r4
        pure (grp ++ '.' :: e)))

/-- Pattern `'pitch_shift'`:
`pitch\s+(?:down|up)?\s*(-?\d+)\s*(?:semitones?|st)?` (group 1 as int). -/
def pitchAt (cs : List Char) : Option Int := do
  let r1 ← litS "pitch" cs
  let r2 ← ws1 r1
  let cont : List Char → Option Int := fun r =>
    let r := r.dropWhile pyIsSpace
    match r with
    | '-' :: r' => do
      let d ← digits1 r'
      pure (-(d.1 : Int))
    | _ => do
      let d ← digits1 r
      pure ((d.1 : Int))
  (do
    let r3 ← litS "down" r2
    cont r3) <|>
  (do
    let r3 ← litS "up" r2
    cont r3) <|>
  cont r2

/-- Regex `[0-9.]+`, greedy. -/
def floatChars1 (cs : List Char) : Option (List Char × List Char) :=
  let tk := cs.takeWhile (fun c => c.isDigit || c = '.')
  if tk.isEmpty then none else some (tk, cs.drop tk.length)

/-- Python `float()` on a `[0-9.]+` capture. A capture with two or more dots
makes `float()` raise `ValueError` (crashing the Python parser); such inputs
are mapped to `0` here. -/
def pyFloat (ds : List Char) : ℚ :=
  match ds.splitOn '.' with
  | [a] => (natOfDigits a : ℚ)
  | [a, b] => (natOfDigits a : ℚ) + (natOfDigits b : ℚ) / ((10 : ℚ) ^ b.length)
  | _ => 0

/-- Pattern `'time_stretch'`: `stretch\s+(?:by\s+)?([0-9.]+)` (group 1 as
float). -/
def stretchAt (cs : List Char) : Option ℚ := do
  let r1 ← litS "stretch" cs
  let r2 ← ws1 r1
  let cont : List Char → Option ℚ := fun r => do
    let p ← floatChars1 r
    pure (pyFloat p.1)
  (do
    let r3 ← litS "by" r2
    let r4 ← ws1 r3
    cont r4) <|>
  cont r2

/-- Pattern `'filter'`:
`(lowpass|highpass|bandpass)\s+(?:filter\s+)?(?:at\s+)?(\d+)\s*(?:hz)?`. -/
def filterAt (cs : List Char) : Option (String × Nat) :=
  let core : String → List Char → Option (String × Nat) := fun k r => do
    let r ← ws1 r
    let cont2 : List Char → Option (String × Nat) := fun r => do
      let d ← digits1 r
      pure (k, d.1)
    let contAt : List Char → Option (String × Nat) := fun r =>
      (do
        let a ← litS "at" r
        let b ← ws1 a
        cont2 b) <|>
      cont2 r
    (do
      let a ← litS "filter" r
      let b ← ws1 a
      contAt b) <|>
    contAt r
  (do
    let r ← litS "lowpass" cs
    core "lowpass" r) <|>
  (do
    let r ← litS "highpass" cs
    core "highpass" r) <|>
  (do
    let r ← litS "bandpass" cs
    core "bandpass" r)

/-- Pattern `'slice'`:
`(?:slice|chop)\s+(?:into\s+)?(\d+)\s*(?:slices?|parts?)?`. -/
def sliceAt (cs : List Char) : Option Nat :=
  let core : List Char → Option Nat := fun r => do
    let r ← ws1 r
    let cont : List Char → Option Nat := fun r => do
      let d ← digits1 r
      pure d.1
    (do
      let a ← litS "into" r
      let b ← ws1 a
      cont b) <|>
    cont r
  (do
    let r ← litS "slice" cs
    core r) <|>
  (do
    let r ← litS "chop" cs
    core r)

/-- Pattern `'insert_position'`:
`insert\s+(?:at\s+)?(?:bar\s+)?(\d+)(?:\s+beat\s+)?(\d+)?`; returns
(group 1, group 2?). Committing to a matched `at`/`bar` phrase is safe: when
one matches, the absent alternative dies at the following letter. -/
def insertAt (cs : List Char) : Option (Nat × Option Nat) := do
  let r1 ← litS "insert" cs
  let r2 ← ws1 r1
  let r3 :=
    match (do
      let a ← litS "at" r2
      ws1 a) with
    | some x => x
    | none => r2
  let r4 :=
    match (do
      let a ← litS "bar" r3
      ws1 a) with
    | some x => x
    | none => r3
  let d ← digits1 r4
  let beat? : Option Nat :=
    match (do
      let a ← ws1 d.2
      let b ← litS "beat" a
      ws1 b) with
    | some r5 => (digits1 r5).map (fun p => p.1)
    | none => none
  pure (d.1, beat?)

/-- Pattern `'measure_position'`:
`(?:at\s+)?(?:the\s+)?(?:end\s+of\s+)?(?:measure|bar)\s+(\d+)`. -/
def measureAt (cs : List Char) : Option Nat :=
  let core : List Char → Option Nat := fun r => do
    let r ← litS "measure" r <|> litS "bar" r
    let r ← ws1 r
    let d ← digits1 r
    pure d.1
  let p3 : List Char → Option Nat := fun r =>
    (do
      let a ← litS "end" r
      let b ← ws1 a
      let c ← litS "of" b
      let d ← ws1 c
      core d) <|>
    core r
  let p2 : List Char → Option Nat := fun r =>
    (do
      let a ← litS "the" r
      let b ← ws1 a
      p3 b) <|>
    p3 r
  let p1 : List Char → Option Nat := fun r =>
    (do
      let a ← litS "at" r
      let b ← ws1 a
      p2 b) <|>
    p2 r
  p1 cs

/-- Pattern `'beat_position'`: `(?:beat|count)\s+(\d+)`. -/
def beatAt (cs : List Char) : Option Nat := do
  let r ← litS "beat" cs <|> litS "count" cs
  let r ← ws1 r
  let d ← digits1 r
  pure d.1

/-- The capture group `([A-G][#b]?m?)` of the `'key'` pattern, anchored: the
character class `[A-G]` matches only uppercase letters. -/
def keyCore (r : List Char) : Option (List Char) :=
  match r with
  | c :: t =>
    if 'A' ≤ c ∧ c ≤ 'G' then
      let acc : List Char × List Char :=
        match t with
        | a :: t' => if a = '#' ∨ a = 'b' then ([a], t') else ([], t)
        | [] => ([], [])
      let mm : List Char :=
        match acc.2 with
        | m :: _ => if m = 'm' then [m] else []
        | [] => []
      some (c :: (acc.1 ++ mm))
    else none
  | [] => none

/-- The `(?:key\s+of\s+)?` optional prefix of the `'key'` pattern, followed
by the capture group. -/
def keyP2 (r : List Char) : Option (List Char) :=
  (do
    let a ← litS "key" r
    let b ← ws1 a
    let c ← litS "of" b
    let d ← ws1 c
    keyCore d) <|>
  keyCore r

/-- Pattern `'key'`: `(?:in\s+)?(?:key\s+of\s+)?([A-G][#b]?m?)`. -/
def keyAt (cs : List Char) : Option (List Char) :=
  (do
    let a ← litS "in" cs
    let b ← ws1 a
    keyP2 b) <|>
  keyP2 cs

/-- Pattern `'genre'`: `(memphis|trap|lofi|boom\s*bap|drill)` (group 1 is the
matched text, including any whitespace inside `boom\s*bap`). -/
def genreAt (cs : List Char) : Option (List Char) :=
  if "memphis".data.isPrefixOf cs then some "memphis".data
  else if "trap".data.isPrefixOf cs then some "trap".data
  else if "lofi".data.isPrefixOf cs then some "lofi".data
  else
    match (do
      let r1 ← litS "boom" cs
      let wsc := r1.takeWhile pyIsSpace
      let r2 := r1.drop wsc.length
      let _ ← litS "bap" r2
      pure ("boom".data ++ wsc ++ "bap".data)) with
    | some t => some t
    | none => if "drill".data.isPrefixOf cs then some "drill".data else none

/-- Pattern `'bpm'`: `(?:at\s+)?(\d+)\s*bpm`. -/
def bpmAt (cs : List Char) : Option Nat :=
  let core : List Char → Option Nat := fun r => do
    let d ← digits1 r
    let r2 := d.2.dropWhile pyIsSpace
    let _ ← litS "bpm" r2
    pure d.1
  (do
    let a ← litS "at" cs
    let b ← ws1 a
    core b) <|>
  core cs

/-- Pattern `'bars'`: `(\d+)\s+bars?`. -/
def barsAt (cs : List Char) : Option Nat := do
  let d ← digits1 cs
  let r ← ws1 d.2
  let _ ← litS "bar" r
  pure d.1

/-- Pattern `'with_808'`: `with\s+808s?`. -/
def with808At (cs : List Char) : Option Unit := do
  let a ← litS "with" cs
  let b ← ws1 a
  let _ ← litS "808" b
  pure ()

/-- Pattern `'create_beat'`: `create\s+(?:a\s+)?(.+?)\s+(?:style\s+)?beat`
(group 1). The `\s+` after `create` and after the optional `a` need genuine
greedy backtracking because the following `.+?` also matches whitespace. -/
def createBeatAt (cs : List Char) : Option (List Char) := do
  let r1 ← litS "create" cs
  let m := leadWs r1
  if m = 0 then none
  else
    let afterA : List Char → Option (List Char) := fun r =>
      tryLazyUp [] r (fun grp r3 => do
        let r4 ← ws1 r3
        let fin :=
          (do
            let a ← litS "style" r4
            let b ← ws1 a
            litS "beat" b) <|>
          litS "beat" r4
        let _ ← fin
        pure grp)
    tryWsDown r1 m (fun r2 =>
      let presentA : Option (List Char) :=
        match r2 with
        | 'a' :: r' =>
          let ma := leadWs r'
          if ma = 0 then none else tryWsDown r' ma afterA
        | _ => none
      match presentA with
      | some x => some x
      | none => afterA r2)

/-- The `'operations'` entries built by `_parse_sample_command`. -/
inductive Operation where
  | pitch_shift (semitones : Int)
  | time_stretch (rate : ℚ)
  | filter (kind : String) (cutoff : Nat)
  | slice (numSlices : Nat)
deriving DecidableEq

/-- The tag string of an operation (its `'type'` field). -/
def Operation.kind : Operation → String
  | .pitch_shift _ => "pitch_shift"
  | .time_stretch _ => "time_stretch"
  | .filter _ _ => "filter"
  | .slice _ => "slice"

/-- Result record of `CommandParser._parse_sample_command`. -/
structure SampleCmd where
  sample_path : Option String
  operations : List Operation
  insert_bar : Option Nat
  insert_beat : Nat
deriving DecidableEq

/-- `CommandParser._parse_sample_command` (argument already lowercased and
stripped by `parse`). Note the fallback guard is Python
`if measure_match and not result['insert_bar']`, where `not` treats both
`None` and `0` as falsy. -/
def parse_sample_command (cs : List Char) : SampleCmd :=
  let sp := (scanFirst samplePathAt cs).map (fun l => (⟨l⟩ : String))
  let pitchOp : List Operation :=
    match scanFirst pitchAt cs with
    | some n =>
      let n' := if isSubstr "pitch down".data cs ∧ n > 0 then -n else n
      [.pitch_shift n']
    | none => []
  let stretchOp : List Operation :=
    match scanFirst stretchAt cs with
    | some r => [.time_stretch r]
    | none => []
  let filterOp : List Operation :=
    match scanFirst filterAt cs with
    | some fc => [.filter fc.1 fc.2]
    | none => []
  let sliceOp : List Operation :=
    match scanFirst sliceAt cs with
    | some n => [.slice n]
    | none => []
  let ins := scanFirst insertAt cs
  let bar0 : Option Nat := ins.map (fun p => p.1)
  let beat0 : Nat :=
    match ins with
    | some (_, some b) => b
    | some (_, none) => 1
    | none => 1
  let meas := scanFirst measureAt cs
  let useFallback := meas.isSome ∧ (bar0 = none ∨ bar0 = some 0)
  let bar1 := if useFallback then meas else bar0
  let beat1 :=
    if useFallback then
      match scanFirst beatAt cs with
      | some b => b
      | none => beat0
    else beat0
  { sample_path := sp, operations := pitchOp ++ stretchOp ++ filterOp ++ sliceOp,
    insert_bar := bar1, insert_beat := beat1 }

/-- Result record of `CommandParser._parse_generate_command`. -/
structure GenCmd where
  genre : String
  bpm : Option Nat
  key : String
  bars : Nat
  include_808 : Bool
deriving DecidableEq

/-- `CommandParser._parse_generate_command` (argument already lowercased and
stripped by `parse`). -/
def parse_generate_command (cs : List Char) : GenCmd :=
  let genre0 : Option String :=
    match scanFirst genreAt cs with
    | some gtext => some ⟨gtext.map (fun c => if c = ' ' then '_' else c)⟩
    | none =>
      if isSubstr "beat".data cs then
        match scanFirst createBeatAt cs with
        | some desc =>
          if isSubstr "memphis".data desc then some "memphis"
          else if isSubstr "trap".data desc then some "trap"
          else if isSubstr "lofi".data desc then some "lofi"
          else if isSubstr "drill".data desc then some "drill"
          else none
        | none => none
      else none
  let genre := genre0.getD "trap"
  let bpm := scanFirst bpmAt cs
  let key : String :=
    match scanFirst keyAt cs with
    | some k => ⟨pyUpper k⟩
    | none => "C"
  let bars := (scanFirst barsAt cs).getD 4
  let inc := (scanFirst with808At cs).isSome
  { genre := genre, bpm := bpm, key := key, bars := bars, include_808 := inc }

/-- The tagged result of `CommandParser.parse`. -/
inductive ParsedCommand where
  | sample (r : SampleCmd)
  | generate (r : GenCmd)
  | unknown (raw : String)
deriving DecidableEq

def ParsedCommand.isSample : ParsedCommand → Bool
  | .sample _ => true
  | _ => false

/-- `CommandParser.parse`: lowercase + strip, then keyword-presence dispatch
in fixed priority order. -/
def parse (command : String) : ParsedCommand :=
  let c := pyStrip (pyLower command.data)
  if isSubstr "take".data c ∨ isSubstr "load".data c ∨ isSubstr "use".data c ∨
      isSubstr "sample".data c then
    .sample (parse_sample_command c)
  else if isSubstr "create".data c ∨ isSubstr "make".data c ∨
      isSubstr "generate".data c then
    .generate (parse_generate_command c)
  else
    .unknown ⟨c⟩

/-- The keyword-presence test of `parse` line 51:
`any(word in command for word in ['take', 'load', 'use', 'sample'])`. -/
def hasSampleWord (c : List Char) : Bool :=
  isSubstr "take".data c || isSubstr "load".data c || isSubstr "use".data c ||
    isSubstr "sample".data c

/-- The keyword-presence test of `parse` line 53:
`any(word in command for word in ['create', 'make', 'generate'])`. -/
def hasCreateWord (c : List Char) : Bool :=
  isSubstr "create".data c || isSubstr "make".data c || isSubstr "generate".data c

/-- All onsets of a pattern lie on the straight (even-step) sixteenth grid:
every event starts at `s * sd` for some even step `s`. -/
def onGrid (sd : ℚ) (p : List NoteEvent) : Prop :=
  ∀ e ∈ p, ∃ s : Nat, s % 2 = 0 ∧ e.time = (s : ℚ) * sd

/-! ## Helper lemmas -/

theorem patLoop_length_congr (f₁ f₂ : Nat → Nat → List NoteEvent × Nat)
    (h : ∀ s i j, (f₁ s i).1.length = (f₂ s j).1.length) :
    ∀ (n s i j : Nat), (patLoop f₁ s n i).1.length = (patLoop f₂ s n j).1.length := by
  intro n
  induction n with
  | zero => intro s i j; rfl
  | succ n ih =>
    intro s i j
    simp only [patLoop, List.length_append]
    rw [h s i j, ih (s + 1)]

theorem patLoop_all (P : NoteEvent → Prop) (f : Nat → Nat → List NoteEvent × Nat)
    (h : ∀ s i, ∀ e ∈ (f s i).1, P e) :
    ∀ (n s i : Nat), ∀ e ∈ (patLoop f s n i).1, P e := by
  intro n
  induction n with
  | zero => intro s i e he; simp [patLoop] at he
  | succ n ih =>
    intro s i e he
    simp only [patLoop, List.mem_append] at he
    rcases he with h1 | h2
    · exact h s i e h1
    · exact ih (s + 1) _ e h2

theorem lofiStep_length_congr (sd : ℚ) (spb : Nat) (g g' : RStream) (s i j : Nat) :
    (lofiStep sd spb g s i).1.length = (lofiStep sd spb g' s j).1.length := by
  simp only [lofiStep]
  split_ifs <;> simp

theorem boomBapStep_length_congr (sd : ℚ) (spb : Nat) (g g' : RStream) (s i j : Nat) :
    (boomBapStep sd spb g s i).1.length = (boomBapStep sd spb g' s j).1.length := by
  simp only [boomBapStep]
  split_ifs <;> simp

theorem lofiStep_onGrid (sd : ℚ) (m : Nat) (g : RStream) (s i : Nat) :
    ∀ e ∈ (lofiStep sd (2 * m) g s i).1, ∃ k : Nat, k % 2 = 0 ∧ e.time = (k : ℚ) * sd := by
  intro e he
  have hmod : s % (2 * m) % 2 = s % 2 := Nat.mod_mod_of_dvd s ⟨m, rfl⟩
  simp only [lofiStep, List.mem_append] at he
  rcases he with (h | h) | h
  · by_cases hc : s % (2 * m) = 0 ∨ s % (2 * m) = 8
    · simp only [if_pos hc] at h
      have hs2 : s % 2 = 0 := by
        rw [← hmod]; rcases hc with h0 | h0 <;> simp [h0]
      have hne : ¬ s % 2 = 1 := by omega
      simp only [List.mem_singleton] at h
      subst h
      exact ⟨s, hs2, by simp [hne]⟩
    · rw [if_neg hc] at h
      exact absurd h (by simp)
  · by_cases hc : s % (2 * m) = 4 ∨ s % (2 * m) = 12
    · simp only [if_pos hc] at h
      have hs2 : s % 2 = 0 := by
        rw [← hmod]; rcases hc with h0 | h0 <;> simp [h0]
      have hne : ¬ s % 2 = 1 := by omega
      simp only [List.mem_singleton] at h
      subst h
      exact ⟨s, hs2, by simp [hne]⟩
    · rw [if_neg hc] at h
      exact absurd h (by simp)
  · by_cases hc : s % (2 * m) % 2 = 0
    · simp only [if_pos hc] at h
      have hs2 : s % 2 = 0 := by rw [← hmod]; exact hc
      have hne : ¬ s % 2 = 1 := by omega
      simp only [List.mem_singleton] at h
      subst h
      exact ⟨s, hs2, by simp [hne]⟩
    · rw [if_neg hc] at h
      exact absurd h (by simp)

theorem char_toNat_ofNat (n : Nat) (h : n.isValidChar) : (Char.ofNat n).toNat = n := by
  rw [Char.ofNat, dif_pos h]
  rfl

/-- Lowercasing never produces a character in the class `[A-G]`. -/
theorem pyLowerChar_not_key (c : Char) : ¬('A' ≤ pyLowerChar c ∧ pyLowerChar c ≤ 'G') := by
  unfold pyLowerChar
  split_ifs with h
  · rintro ⟨h1, h2⟩
    have hz : c.toNat ≤ 90 := h.2
    have hval : (Char.ofNat (c.toNat + 32)).toNat = c.toNat + 32 :=
      char_toNat_ofNat _ (Or.inl (by omega))
    have hA : 65 ≤ c.toNat := h.1
    have hG : (Char.ofNat (c.toNat + 32)).toNat ≤ 71 := h2
    omega
  · rintro ⟨h1, h2⟩
    exact h ⟨h1, le_trans h2 (by decide)⟩

theorem pyLower_not_key (cs : List Char) : ∀ c ∈ pyLower cs, ¬('A' ≤ c ∧ c ≤ 'G') := by
  intro c hc
  rcases List.mem_map.mp hc with ⟨a, _, rfl⟩
  exact pyLowerChar_not_key a

theorem pyStrip_subset (cs : List Char) : ∀ c ∈ pyStrip cs, c ∈ cs := by
  intro c hc
  unfold pyStrip at hc
  rw [List.mem_reverse] at hc
  have h1 := (List.dropWhile_sublist pyIsSpace).subset hc
  rw [List.mem_reverse] at h1
  exact (List.dropWhile_sublist pyIsSpace).subset h1

theorem litS_mem {w : String} {cs r : List Char} (h : litS w cs = some r) :
    ∀ c ∈ r, c ∈ cs := by
  unfold litS at h
  split at h
  · cases h
    intro c hc
    exact List.drop_subset _ _ hc
  · cases h

theorem ws1_mem {cs r : List Char} (h : ws1 cs = some r) : ∀ c ∈ r, c ∈ cs := by
  cases cs with
  | nil => simp [ws1] at h
  | cons a t =>
    simp only [ws1] at h
    by_cases hsp : pyIsSpace a = true
    · rw [if_pos hsp] at h
      have h' := Option.some.inj h
      subst h'
      intro c hc
      exact List.mem_cons_of_mem a ((List.dropWhile_sublist pyIsSpace).subset hc)
    · rw [if_neg hsp] at h
      simp at h

theorem keyCore_none {r : List Char} (h : ∀ c ∈ r, ¬('A' ≤ c ∧ c ≤ 'G')) :
    keyCore r = none := by
  cases r with
  | nil => rfl
  | cons c t =>
    simp only [keyCore]
    rw [if_neg (h c (List.mem_cons_self c t))]

theorem keyP2_none {r : List Char} (h : ∀ c ∈ r, ¬('A' ≤ c ∧ c ≤ 'G')) :
    keyP2 r = none := by
  unfold keyP2
  cases hk : litS "key" r with
  | none => simp [hk, keyCore_none h]
  | some a =>
    cases hw : ws1 a with
    | none => simp [hk, hw, keyCore_none h]
    | some b =>
      cases ho : litS "of" b with
      | none => simp [hk, hw, ho, keyCore_none h]
      | some c' =>
        cases hw2 : ws1 c' with
        | none => simp [hk, hw, ho, hw2, keyCore_none h]
        | some d =>
          have hd : ∀ c ∈ d, ¬('A' ≤ c ∧ c ≤ 'G') := fun x hx =>
            h x (litS_mem hk x (ws1_mem hw x (litS_mem ho x (ws1_mem hw2 x hx))))
          simp [hk, hw, ho, hw2, keyCore_none hd, keyCore_none h]

theorem keyAt_none {cs : List Char} (h : ∀ c ∈ cs, ¬('A' ≤ c ∧ c ≤ 'G')) :
    keyAt cs = none := by
  unfold keyAt
  cases hk : litS "in" cs with
  | none => simp [hk, keyP2_none h]
  | some a =>
    cases hw : ws1 a with
    | none => simp [hk, hw, keyP2_none h]
    | some b =>
      have hb : ∀ c ∈ b, ¬('A' ≤ c ∧ c ≤ 'G') := fun x hx =>
        h x (litS_mem hk x (ws1_mem hw x hx))
      simp [hk, hw, keyP2_none hb, keyP2_none h]

theorem scanFirst_keyAt_none :
    ∀ cs : List Char, (∀ c ∈ cs, ¬('A' ≤ c ∧ c ≤ 'G')) → scanFirst keyAt cs = none := by
  intro cs
  induction cs with
  | nil => intro h; simpa [scanFirst] using keyAt_none h
  | cons c t ih =>
    intro h
    simp only [scanFirst]
    rw [keyAt_none h]
    exact ih (fun x hx => h x (List.mem_cons_of_mem c hx))

/-! ## Theorems -/

unseal Rat.mul Rat.inv Rat.add Rat.sub in
/-- Counterexample to claim C1: for the memphis style (bars = 1, bpm = 140,
complexity = 1/2) two different draw streams give different total event
counts (21 versus 12): the optional step-12 kick and the odd-step hi-hats
fire or not depending on the draws. -/
theorem c1_counterexample :
    (create_drum_pattern 140 16 "memphis" 1 (1/2) (fun _ => 0) 0).1.length = 21 ∧
    (create_drum_pattern 140 16 "memphis" 1 (1/2) (fun _ => (9 : ℚ)/10) 0).1.length = 12 := by
  constructor <;> decide

/-- Claim C1 as amended: the total duration formula depends only on bpm and
bar count, and for the styles without probabilistic hits (lofi, boom_bap,
and the default four-on-the-floor) the total event count is deterministic:
it does not depend on the random stream or cursor. For memphis and trap the
event count varies with the draws (see the counterexample). -/
theorem c1_amended_deterministic_styles (bpm spb bars : Nat) (cx cx' : ℚ)
    (g g' : RStream) (i i' : Nat) :
    (create_drum_pattern bpm spb "lofi" bars cx g i).1.length
      = (create_drum_pattern bpm spb "lofi" bars cx' g' i').1.length ∧
    (create_drum_pattern bpm spb "boom_bap" bars cx g i).1.length
      = (create_drum_pattern bpm spb "boom_bap" bars cx' g' i').1.length ∧
    (create_drum_pattern bpm spb "house" bars cx g i).1.length
      = (create_drum_pattern bpm spb "house" bars cx' g' i').1.length := by
  refine ⟨?_, ?_, ?_⟩
  · exact patLoop_length_congr _ _
      (fun s a b => lofiStep_length_congr (stepDur bpm spb) spb g g' s a b)
      (spb * bars) 0 i i'
  · exact patLoop_length_congr _ _
      (fun s a b => boomBapStep_length_congr (stepDur bpm spb) spb g g' s a b)
      (spb * bars) 0 i i'
  · exact patLoop_length_congr (basicStep (stepDur bpm spb) spb)
      (basicStep (stepDur bpm spb) spb) (fun s a b => rfl) (spb * bars) 0 i i'

/-- Claim C2: `combine_patterns` returns a pattern of length
`len(a) + len(b)`, pairwise non-decreasing in start time, and stable: any
two events that appear in order in `a ++ b` with non-decreasing times (in
particular an `a`-event and a `b`-event with equal times, and any
equal-time pair within one input) appear in the same order in the output. -/
theorem c2_combine_stable_sort (a b : List NoteEvent) :
    (combine_patterns [a, b]).length = a.length + b.length ∧
    List.Pairwise (fun x y : NoteEvent => x.time ≤ y.time) (combine_patterns [a, b]) ∧
    (∀ x y : NoteEvent, List.Sublist [x, y] (a ++ b) → x.time ≤ y.time →
      List.Sublist [x, y] (combine_patterns [a, b])) ∧
    ∀ x y : NoteEvent, x ∈ a → y ∈ b → x.time ≤ y.time →
      List.Sublist [x, y] (combine_patterns [a, b]) := by
  have htrans : ∀ p q r : NoteEvent, decide (p.time ≤ q.time) = true →
      decide (q.time ≤ r.time) = true → decide (p.time ≤ r.time) = true := by
    intro p q r hpq hqr
    simp only [decide_eq_true_eq] at *
    exact le_trans hpq hqr
  have htotal : ∀ p q : NoteEvent,
      (decide (p.time ≤ q.time) || decide (q.time ≤ p.time)) = true := by
    intro p q
    simpa [Bool.or_eq_true, decide_eq_true_eq] using le_total p.time q.time
  have hpair : ∀ x y : NoteEvent, List.Sublist [x, y] (a ++ b) → x.time ≤ y.time →
      List.Sublist [x, y] (combine_patterns [a, b]) := by
    intro x y hxy hle
    simp only [combine_patterns]
    exact List.pair_sublist_mergeSort htrans htotal (by simpa using hle)
      (by simpa using hxy)
  refine ⟨?_, ?_, hpair, ?_⟩
  · simp [combine_patterns]
  · have hs := List.sorted_mergeSort htrans htotal
      (([a, b] : List (List NoteEvent)).flatten)
    exact hs.imp (by intro x y h; simpa using h)
  · intro x y hx hy hle
    exact hpair x y
      ((List.singleton_sublist.mpr hx).append (List.singleton_sublist.mpr hy)) hle

/-- Witness for C2: two equal-time events, one from each input, stay in
input order in the combined pattern. -/
theorem c2_combine_stable_sort_witness :
    List.Sublist
      [({ note := 36, velocity := 100, time := 0, duration := 1 } : NoteEvent),
       ({ note := 38, velocity := 90, time := 0, duration := 1 } : NoteEvent)]
      (combine_patterns
        [[{ note := 36, velocity := 100, time := 0, duration := 1 }],
         [{ note := 38, velocity := 90, time := 0, duration := 1 }]]) :=
  (c2_combine_stable_sort _ _).2.2.1 _ _ (List.Sublist.refl _) (le_refl (0 : ℚ))

/-- Claim C10: every event emitted by the lofi pattern occurs at an even
step (the kick, snare and hi-hat conditions all force an even bar position
whenever the bar length is even, as it is in the system where
`steps_per_bar = 16`), so its onset is `step * step_duration` on the
straight sixteenth grid: the swing-time computation for odd steps never
affects any emitted event. -/
theorem c10_lofi_on_straight_grid (m bpm bars : Nat) (cx : ℚ) (g : RStream) (i : Nat) :
    onGrid (stepDur bpm (2 * m)) (create_drum_pattern bpm (2 * m) "lofi" bars cx g i).1 := by
  intro e he
  exact patLoop_all _ _ (fun s j => lofiStep_onGrid (stepDur bpm (2 * m)) m g s j)
    (2 * m * bars) 0 i e he

/-- Claim C5: `resolveKey("Dm","major") = (62,"minor")`,
`resolveKey("C","minor") = (60,"major")`, `resolveKey("F#","major") = (66,"major")`,
and any key whose root-letter part is not in the note table resolves to root
pitch 60 without error (the embedding is total, so no exception can occur). -/
theorem c5_parse_key_spec :
    parse_key "Dm" "major" = (62, "minor") ∧
    parse_key "C" "minor" = (60, "major") ∧
    parse_key "F#" "major" = (66, "major") ∧
    ∀ (k d : String), noteMap.lookup (rootPart k) = none → (parse_key k d).1 = 60 := by
  refine ⟨by decide, by decide, by decide, ?_⟩
  intro k d h
  simp [parse_key, h]

/-- Witness for C5: the unrecognized root letter `"H"` (from key `"Hm"`)
resolves to pitch 60. -/
theorem c5_parse_key_spec_witness :
    noteMap.lookup (rootPart "Hm") = none ∧ (parse_key "Hm" "major").1 = 60 :=
  ⟨by decide, c5_parse_key_spec.2.2.2 "Hm" "major" (by decide)⟩

/-- Claim C9: intent keywords are matched by substring containment, so
"create a house beat" is classified as a sample command (the sample keyword
"use" occurs inside "house"), even though the create keyword is present. -/
theorem c9_house_beat_is_sample :
    (parse "create a house beat").isSample = true ∧
    isSubstr "create".data (pyStrip (pyLower "create a house beat".data)) = true ∧
    isSubstr "use".data "house".data = true := by decide

/-- Claim C4 (code bug): the key field of every parsed Generate command is
the default `"C"`: `parse` lowercases the text while the key regex class
`[A-G]` matches only uppercase letters, so the key match always fails. In
particular `"make a trap beat in key of Dm with 808s"` yields key `"C"`,
not `"DM"`/`"Dm"`. -/
theorem c4_key_never_extracted :
    (∀ cmd : String, (parse_generate_command (pyStrip (pyLower cmd.data))).key = "C") ∧
    parse "make a trap beat in key of Dm with 808s"
      = .generate { genre := "trap", bpm := none, key := "C", bars := 4,
                    include_808 := true } := by
  constructor
  · intro cmd
    have hnone : scanFirst keyAt (pyStrip (pyLower cmd.data)) = none :=
      scanFirst_keyAt_none _
        (fun c hc => pyLower_not_key cmd.data c (pyStrip_subset _ c hc))
    simp [parse_generate_command, hnone]
  · decide

/-- Counterexample to claim C3: in
`"use kick.wav, chop into 4 parts, pitch 2"` the slice operation appears
before the pitch operation in the text, but the parsed operations list is
`[pitch_shift 2, slice 4]` — the fixed evaluation order, not text order. -/
theorem c3_counterexample :
    parse "use kick.wav, chop into 4 parts, pitch 2"
      = .sample { sample_path := some "kick.wav",
                  operations := [.pitch_shift 2, .slice 4],
                  insert_bar := none, insert_beat := 1 } ∧
    [Operation.pitch_shift 2, Operation.slice 4]
      ≠ [Operation.slice 4, Operation.pitch_shift 2] := by decide

/-- Claim C3 as amended: the operations list is always ordered by the fixed
evaluation order pitch shift, time stretch, filter, slice (at most one of
each kind), regardless of where the operations appear in the text. -/
theorem c3_amended_fixed_operation_order (cs : List Char) :
    List.Sublist ((parse_sample_command cs).operations.map Operation.kind)
      ["pitch_shift", "time_stretch", "filter", "slice"] := by
  unfold parse_sample_command
  cases scanFirst pitchAt cs <;>
    cases scanFirst stretchAt cs <;>
      cases scanFirst filterAt cs <;>
        cases scanFirst sliceAt cs <;>
          simp [Operation.kind]

/-- Counterexample to claim C6: for input `"HELLO WORLD"` the result is
`unknown "hello world"` — the lowercased, stripped text, not the original
raw text. -/
theorem c6_counterexample :
    parse "HELLO WORLD" ≠ .unknown "HELLO WORLD" ∧
    parse "HELLO WORLD" = .unknown "hello world" := by decide

/-- Claim C6 as amended: classification is keyword-presence based in fixed
priority order (sample words, then create words, else unknown), and the
unknown result carries the lowercased, stripped text. -/
theorem c6_amended_priority_dispatch (cmd : String) :
    (hasSampleWord (pyStrip (pyLower cmd.data)) = true →
      parse cmd = .sample (parse_sample_command (pyStrip (pyLower cmd.data)))) ∧
    (hasSampleWord (pyStrip (pyLower cmd.data)) = false →
      hasCreateWord (pyStrip (pyLower cmd.data)) = true →
      parse cmd = .generate (parse_generate_command (pyStrip (pyLower cmd.data)))) ∧
    (hasSampleWord (pyStrip (pyLower cmd.data)) = false →
      hasCreateWord (pyStrip (pyLower cmd.data)) = false →
      parse cmd = .unknown ⟨pyStrip (pyLower cmd.data)⟩) := by
  refine ⟨fun h => ?_, fun h1 h2 => ?_, fun h1 h2 => ?_⟩
  · simp only [hasSampleWord, Bool.or_eq_true] at h
    simp only [parse]
    rw [if_pos (by tauto)]
  · rcases (by simpa [hasSampleWord, Bool.or_eq_false_iff] using h1 :
      ((isSubstr "take".data (pyStrip (pyLower cmd.data)) = false ∧
        isSubstr "load".data (pyStrip (pyLower cmd.data)) = false) ∧
        isSubstr "use".data (pyStrip (pyLower cmd.data)) = false) ∧
        isSubstr "sample".data (pyStrip (pyLower cmd.data)) = false) with
      ⟨⟨⟨ha, hb⟩, hc⟩, hd⟩
    simp only [hasCreateWord, Bool.or_eq_true] at h2
    simp only [parse]
    rw [if_neg (by simp [ha, hb, hc, hd]), if_pos (by tauto)]
  · rcases (by simpa [hasSampleWord, Bool.or_eq_false_iff] using h1 :
      ((isSubstr "take".data (pyStrip (pyLower cmd.data)) = false ∧
        isSubstr "load".data (pyStrip (pyLower cmd.data)) = false) ∧
        isSubstr "use".data (pyStrip (pyLower cmd.data)) = false) ∧
        isSubstr "sample".data (pyStrip (pyLower cmd.data)) = false) with
      ⟨⟨⟨ha, hb⟩, hc⟩, hd⟩
    rcases (by simpa [hasCreateWord, Bool.or_eq_false_iff] using h2 :
      (isSubstr "create".data (pyStrip (pyLower cmd.data)) = false ∧
        isSubstr "make".data (pyStrip (pyLower cmd.data)) = false) ∧
        isSubstr "generate".data (pyStrip (pyLower cmd.data)) = false) with
      ⟨⟨he, hf⟩, hg⟩
    simp only [parse]
    rw [if_neg (by simp [ha, hb, hc, hd]), if_neg (by simp [he, hf, hg])]

/-- Witness for C6: a text containing both a sample keyword and a create
keyword resolves to the sample variant. -/
theorem c6_amended_witness :
    hasSampleWord (pyStrip (pyLower "use it to create".data)) = true ∧
    parse "use it to create"
      = .sample (parse_sample_command (pyStrip (pyLower "use it to create".data))) :=
  ⟨by decide, (c6_amended_priority_dispatch "use it to create").1 (by decide)⟩

/-- Counterexample to claim C7: on `"use kick.wav insert 0 measure 7"` the
primary insert-position pattern succeeds with bar 0, yet the measure fallback
still applies (Python `not 0` is true) and overrides the bar to 7. -/
theorem c7_counterexample :
    scanFirst insertAt (pyStrip (pyLower "use kick.wav insert 0 measure 7".data))
      = some (0, none) ∧
    parse "use kick.wav insert 0 measure 7"
      = .sample { sample_path := some "kick.wav", operations := [],
                  insert_bar := some 7, insert_beat := 1 } := by decide

/-- Claim C7 as amended: whenever the primary insert-position pattern matches
with a nonzero bar, its bar and beat are used and the measure/beat fallback
is not applied; only a failed primary match or a primary match with bar 0
(falsy in Python) lets the fallback fire. -/
theorem c7_amended_fallback_exclusive (cs : List Char) (b : Nat) (mb : Option Nat)
    (h : scanFirst insertAt cs = some (b, mb)) (hb : b ≠ 0) :
    (parse_sample_command cs).insert_bar = some b ∧
    (parse_sample_command cs).insert_beat = mb.getD 1 := by
  unfold parse_sample_command
  rw [h]
  cases mb <;> simp [hb, Option.getD]

/-- Witness for C7: `"take sample.wav, insert at bar 40 beat 3"` has a
primary match `(40, 3)` and the parsed result keeps exactly those values. -/
theorem c7_amended_witness :
    scanFirst insertAt (pyStrip (pyLower "take sample.wav, insert at bar 40 beat 3".data))
      = some (40, some 3) ∧
    (parse_sample_command
        (pyStrip (pyLower "take sample.wav, insert at bar 40 beat 3".data))).insert_bar
      = some 40 ∧
    (parse_sample_command
        (pyStrip (pyLower "take sample.wav, insert at bar 40 beat 3".data))).insert_beat
      = 3 :=
  ⟨by decide,
   (c7_amended_fallback_exclusive _ 40 (some 3) (by decide) (by decide)).1,
   (c7_amended_fallback_exclusive _ 40 (some 3) (by decide) (by decide)).2⟩

/-- Counterexample to claim C8: with identical explicit bpm, key, bars, flag
and random stream, the bundles returned for genre `"unknownXYZ"` and genre
`"trap"` are not identical: the bundle echoes the original genre string. -/
theorem c8_counterexample :
    generate_beat "unknownXYZ" (some 140) "C" 1 false (fun _ => 0) 0
      ≠ generate_beat "trap" (some 140) "C" 1 false (fun _ => 0) 0 :=
  fun h => absurd (congrArg BeatBundle.genre h) (by decide)

/-- Claim C8 as amended: an unknown genre falls back to the trap template, so
under the same random stream the two calls agree on every field of the
result bundle except the echoed `genre` string. -/
theorem c8_amended_unknown_genre_is_trap (bpm? : Option Nat) (key : String)
    (bars : Nat) (inc : Bool) (g : RStream) (i : Nat) :
    generate_beat "unknownXYZ" bpm? key bars inc g i
      = { generate_beat "trap" bpm? key bars inc g i with genre := "unknownXYZ" } := rfl

end MusicRapper
